import Mathlib

/-!
Verification of the FarmerShield parametric payout engine.

The definitions below are a shallow embedding of the backend's
evaluation-and-settlement code:

* `exceedsThresholds`   — `WeatherData.methods.exceedsThresholds`
  (src/backend/src/models/WeatherData.js)
* `calculateSeverity`   — `RedStoneService.calculateSeverity`
  (src/backend/src/services/redstoneService.js)
* `calculatePayoutAmount`, `settleFarmer`, `processTriggers`
  — `calculatePayoutAmount` / `processWeatherTriggers`
  (src/backend/src/services/weatherService.js)
* `applyOp`             — the unconditional status setters
  `approve` / `reject` / `markAsPaid` (src/backend/src/models/Claim.js)

JavaScript numbers are embedded as ℚ; where the code can divide by zero
(IEEE division yielding ±Infinity) the quotient is modelled by `JsNum`.
-/

namespace FarmerShield

/-- Claim status enum (`claimSchema.status`). -/
inductive Status
  | pending
  | approved
  | rejected
  | paid
  | failed
  deriving DecidableEq, Repr

/-- Severity levels returned by `calculateSeverity`. -/
inductive Severity
  | normal
  | moderate
  | severe
  | critical
  deriving DecidableEq, Repr

/-- A per-metric threshold `{min?, max?}`; an absent field is `none`
(`undefined` in the source). -/
structure Bound where
  min : Option ℚ
  max : Option ℚ
  deriving DecidableEq, Repr

/-- `farmer.weatherThresholds`: optional per-metric bounds.  The source
reads only `windSpeed.max`, but the field is stored like the others. -/
structure Thresholds where
  temperature : Option Bound
  rainfall : Option Bound
  humidity : Option Bound
  windSpeed : Option Bound
  deriving DecidableEq, Repr

/-- The slice of a `WeatherData` document the trigger pipeline reads:
`temperature.current.value`, `rainfall.value`, `humidity.value`,
`wind.speed.value`. -/
structure Observation where
  temperature : ℚ
  rainfall : ℚ
  humidity : ℚ
  windSpeed : ℚ
  deriving DecidableEq, Repr

/-- One entry of the result object built by `exceedsThresholds`. -/
structure BreachResult where
  exceeded : Bool
  value : ℚ
  deriving DecidableEq, Repr

/-- The result object of `exceedsThresholds`: one optional entry per
metric, present exactly when that metric is configured. -/
structure Results where
  temperature : Option BreachResult
  rainfall : Option BreachResult
  humidity : Option BreachResult
  windSpeed : Option BreachResult
  deriving DecidableEq, Repr

/-- `value < min` with JS comparison semantics: comparing against an
absent (`undefined`) bound is false. -/
def belowMin (value : ℚ) : Option ℚ → Bool
  | some m => decide (value < m)
  | none => false

/-- `value > max` with JS comparison semantics: comparing against an
absent (`undefined`) bound is false. -/
def aboveMax (value : ℚ) : Option ℚ → Bool
  | some m => decide (value > m)
  | none => false

/-- `weatherDataSchema.methods.exceedsThresholds`: builds one result per
configured metric; `exceeded = value > max || value < min` (wind speed
checks only `max`). -/
def exceedsThresholds (w : Observation) (t : Thresholds) : Results where
  temperature := t.temperature.map fun b =>
    ⟨aboveMax w.temperature b.max || belowMin w.temperature b.min, w.temperature⟩
  rainfall := t.rainfall.map fun b =>
    ⟨aboveMax w.rainfall b.max || belowMin w.rainfall b.min, w.rainfall⟩
  humidity := t.humidity.map fun b =>
    ⟨aboveMax w.humidity b.max || belowMin w.humidity b.min, w.humidity⟩
  windSpeed := t.windSpeed.map fun b =>
    ⟨aboveMax w.windSpeed b.max, w.windSpeed⟩

/-- `result && result.exceeded` for one entry of the results object. -/
def optExceeded : Option BreachResult → Bool
  | some b => b.exceeded
  | none => false

/-- `Object.values(results).some(result => result && result.exceeded)`. -/
def hasExceeded (r : Results) : Bool :=
  optExceeded r.temperature || optExceeded r.rainfall ||
    optExceeded r.humidity || optExceeded r.windSpeed

/-- A JavaScript number as produced by division: finite, ±Infinity, NaN. -/
inductive JsNum
  | fin (q : ℚ)
  | posInf
  | negInf
  | nan
  deriving DecidableEq, Repr

/-- JS division `a / b`: division by zero with a nonzero numerator yields
a signed infinity, `0 / 0` yields NaN. -/
def jsDiv (a b : ℚ) : JsNum :=
  if b = 0 then
    if 0 < a then .posInf else if a < 0 then .negInf else .nan
  else .fin (a / b)

/-- JS comparison `v > c` on a possibly non-finite left operand:
`Infinity > c` is true, `-Infinity > c` and `NaN > c` are false. -/
def JsNum.gtn (v : JsNum) (c : ℚ) : Bool :=
  match v with
  | .fin q => decide (c < q)
  | .posInf => true
  | .negInf => false
  | .nan => false

/-- The deviation-to-severity ladder shared by both branches of
`calculateSeverity`: `> 0.5 → critical`, `> 0.2 → severe`, else
`moderate`. -/
def sevOfDeviation (d : JsNum) : Severity :=
  if d.gtn (1/2) then .critical
  else if d.gtn (1/5) then .severe
  else .moderate

/-- `RedStoneService.calculateSeverity(value, threshold)`:
a falsy threshold gives `normal`; destructuring defaults make an absent
`min`/`max` never breach; a `min` breach computes
`deviation = (min - value) / min`, a `max` breach
`deviation = (value - max) / max` (dividing by the signed bound). -/
def calculateSeverity (value : ℚ) (threshold : Option Bound) : Severity :=
  match threshold with
  | none => .normal
  | some t =>
    if belowMin value t.min then
      sevOfDeviation (jsDiv (t.min.getD 0 - value) (t.min.getD 0))
    else if aboveMax value t.max then
      sevOfDeviation (jsDiv (value - t.max.getD 0) (t.max.getD 0))
    else .normal

/-- The `(numerator, denominator)` pairs of the divisions
`calculateSeverity` performs, branch for branch: one division per
breached bound, none otherwise. -/
def severityDivisions (value : ℚ) (threshold : Option Bound) : List (ℚ × ℚ) :=
  match threshold with
  | none => []
  | some t =>
    if belowMin value t.min then
      [(t.min.getD 0 - value, t.min.getD 0)]
    else if aboveMax value t.max then
      [(value - t.max.getD 0, t.max.getD 0)]
    else []

/-- Modelled from the spec: the severity the specification prescribes for
a breach of bound `bound` by `value` — `deviation = |value - bound| / |bound|`;
`deviation > 0.5 → critical`, `> 0.2 → severe`, else `moderate`. -/
def specSeverityOfBreach (value bound : ℚ) : Severity :=
  if 1/2 < |value - bound| / |bound| then .critical
  else if 1/5 < |value - bound| / |bound| then .severe
  else .moderate

/-- Contribution of one result entry to the payout multiplier count. -/
def optExceededCount : Option BreachResult → ℕ
  | some b => if b.exceeded then 1 else 0
  | none => 0

/-- Number of breaching entries in a results object. -/
def exceededCount (r : Results) : ℕ :=
  optExceededCount r.temperature + optExceededCount r.rainfall +
    optExceededCount r.humidity + optExceededCount r.windSpeed

/-- `Math.min` on two (finite) JS numbers. -/
def jsMin (a b : ℚ) : ℚ := if a ≤ b then a else b

/-- `calculatePayoutAmount(farmer, thresholdResults)`:
`baseAmount = coverageAmount || 1000` (the JS `||` replaces an absent or
zero coverage with the 1000 default), the multiplier accumulates `0.25`
per breaching entry, and the result is
`Math.min(baseAmount * multiplier, baseAmount)`. -/
def calculatePayoutAmount (coverage : Option ℚ) (r : Results) : ℚ :=
  let baseAmount : ℚ :=
    match coverage with
    | some c => if c = 0 then 1000 else c
    | none => 1000
  let multiplier : ℚ := (exceededCount r : ℚ) * (1/4)
  jsMin (baseAmount * multiplier) baseAmount

/-- The fields of a farmer document the trigger loop reads.  The Farmer
schema file is not in the repository snapshot; the fields are taken from
the query and field accesses in `processWeatherTriggers`
(`isActive`, `insuranceDetails.isRegistered`,
`insuranceDetails.policyStatus`, `insuranceDetails.coverageAmount`,
`walletAddress`, `weatherThresholds`). -/
structure Farmer where
  id : ℕ
  wallet : ℕ
  isActive : Bool
  isRegistered : Bool
  policyStatus : String
  coverageAmount : Option ℚ
  weatherThresholds : Option Thresholds
  deriving DecidableEq, Repr

/-- One embedded metric of a Claim's `weatherData` snapshot. -/
structure MetricSnap where
  value : ℚ
  threshold : ℚ
  exceeded : Bool
  deriving DecidableEq, Repr

/-- The `weatherData` snapshot embedded in a Claim: all four metrics are
always present. -/
structure Snapshot where
  temperature : MetricSnap
  rainfall : MetricSnap
  humidity : MetricSnap
  windSpeed : MetricSnap
  deriving DecidableEq, Repr

/-- The Claim fields the settlement pipeline writes.  `claimId` models
the string `claim_${Date.now()}_${farmer._id}` as the pair
(current time, farmer id); the schema puts a unique index on it. -/
structure ClaimRec where
  claimId : ℕ × ℕ
  farmerId : ℕ
  wallet : ℕ
  weatherData : Snapshot
  amount : ℚ
  status : Status
  deriving DecidableEq, Repr

/-- The snapshot `processWeatherTriggers` embeds in a new Claim: for each
metric, `value` from the observation,
`threshold = thresholds.<metric>?.max || 0` and
`exceeded = thresholdResults.<metric>?.exceeded || false`. -/
def buildSnapshot (w : Observation) (t : Thresholds) (r : Results) : Snapshot where
  temperature :=
    ⟨w.temperature, (t.temperature.bind Bound.max).getD 0,
      (r.temperature.map BreachResult.exceeded).getD false⟩
  rainfall :=
    ⟨w.rainfall, (t.rainfall.bind Bound.max).getD 0,
      (r.rainfall.map BreachResult.exceeded).getD false⟩
  humidity :=
    ⟨w.humidity, (t.humidity.bind Bound.max).getD 0,
      (r.humidity.map BreachResult.exceeded).getD false⟩
  windSpeed :=
    ⟨w.windSpeed, (t.windSpeed.bind Bound.max).getD 0,
      (r.windSpeed.map BreachResult.exceeded).getD false⟩

/-- Outcome of `triggerPayout` as the coordinator observes it: a
successful result, an unsuccessful result (`success: false`, which the
coordinator silently ignores), or a thrown error. -/
inductive TransferOutcome
  | ok (hash : ℕ)
  | err
  | throws
  deriving DecidableEq, Repr

/-- Observable side effects of one settlement pass, in program order:
persistence writes of the Claim and invocations of the external
ledger transfer. -/
inductive Event
  | save (cid : ℕ × ℕ) (st : Status)
  | transfer (wallet : ℕ) (amount : ℚ)
  deriving DecidableEq, Repr

/-- What one per-farmer iteration of the trigger loop produces. -/
inductive Outcome
  | noClaim
  | created (c : ClaimRec)
  | saveError
  deriving DecidableEq, Repr

/-- The per-farmer body of `processWeatherTriggers`, given a successful
weather fetch `w`, the current time `now` and the transfer outcome `tr`:
evaluate thresholds; if any entry is exceeded, build a Claim with a
time-derived `claimId` and save it (the unique index makes a duplicate
id throw, caught by the per-farmer handler); then invoke `triggerPayout`
and reconcile — success marks the Claim paid, an unsuccessful result is
ignored (the Claim stays `pending`), a thrown error sets it `failed`. -/
def settleFarmer (now : ℕ) (f : Farmer) (w : Observation) (tr : TransferOutcome)
    (store : List ClaimRec) : List ClaimRec × List Event × Outcome :=
  match f.weatherThresholds with
  | none => (store, [], .noClaim)
  | some t =>
    let r := exceedsThresholds w t
    if hasExceeded r then
      let cid := (now, f.id)
      let c0 : ClaimRec :=
        ⟨cid, f.id, f.wallet, buildSnapshot w t r,
          calculatePayoutAmount f.coverageAmount r, .pending⟩
      if store.any (fun c => c.claimId = cid) then
        (store, [], .saveError)
      else
        match tr with
        | .ok _ =>
          let c1 := { c0 with status := .paid }
          (store ++ [c1],
            [.save cid .pending, .transfer f.wallet c0.amount, .save cid .paid],
            .created c1)
        | .err =>
          (store ++ [c0],
            [.save cid .pending, .transfer f.wallet c0.amount],
            .created c0)
        | .throws =>
          let c2 := { c0 with status := .failed }
          (store ++ [c2],
            [.save cid .pending, .transfer f.wallet c0.amount, .save cid .failed],
            .created c2)
    else (store, [], .noClaim)

/-- The farmer filter of `processWeatherTriggers`:
`Farmer.find({isActive: true, 'insuranceDetails.isRegistered': true,
'insuranceDetails.policyStatus': 'active'})`. -/
def farmerEligible (f : Farmer) : Bool :=
  f.isActive && f.isRegistered && f.policyStatus = "active"

/-- The full trigger pass: settle each farmer the query returns, threading
the claim store. -/
def processTriggers (now : ℕ) (farmers : List Farmer) (wOf : ℕ → Observation)
    (trOf : ℕ → TransferOutcome) (store : List ClaimRec) : List ClaimRec :=
  (farmers.filter farmerEligible).foldl
    (fun st f => (settleFarmer now f (wOf f.id) (trOf f.id) st).1) store

/-- The administrative and loop status updates on a Claim. -/
inductive ClaimOp
  | approveOp
  | rejectOp
  | markAsPaidOp
  | monitorFailOp
  deriving DecidableEq, Repr

/-- The instance methods `approve`, `reject`, `markAsPaid` and the trigger
loop's `claim.status = 'failed'` write: each sets the status
unconditionally, with no guard on the current state. -/
def applyOp : Status → ClaimOp → Status
  | _, .approveOp => .approved
  | _, .rejectOp => .rejected
  | _, .markAsPaidOp => .paid
  | _, .monitorFailOp => .failed

/-- A status history is paid-terminal when `paid` is never followed by a
different state. -/
def noPaidThenOther : List Status → Bool
  | [] => true
  | s :: rest =>
    (if s = Status.paid then rest.all (fun x => x = Status.paid) else true)
      && noPaidThenOther rest

/-- The Claim statuses written during a settlement pass, in order. -/
def statusTrace (evs : List Event) : List Status :=
  evs.filterMap fun e =>
    match e with
    | .save _ s => some s
    | .transfer _ _ => none

/-- Durability-before-external-effect check on an event trace: every
`transfer` is preceded by a completed `pending` Claim save.  The flag
records whether such a save has already occurred. -/
def savedBeforeTransfers : Bool → List Event → Bool
  | _, [] => true
  | saved, e :: rest =>
    match e with
    | .save _ .pending => savedBeforeTransfers true rest
    | .save _ _ => savedBeforeTransfers saved rest
    | .transfer _ _ => saved && savedBeforeTransfers saved rest

/-! Concrete fixtures used by witnesses and counterexamples. -/

/-- A threshold config with only `temperature.max = 30`. -/
def thresholds0 : Thresholds := ⟨some ⟨none, some 30⟩, none, none, none⟩

/-- An active, registered farmer with coverage 1000 and `thresholds0`. -/
def farmer0 : Farmer := ⟨1, 77, true, true, "active", some 1000, some thresholds0⟩

/-- An observation breaching `thresholds0` (temperature 40 > 30). -/
def obs0 : Observation := ⟨40, 0, 50, 10⟩

/-- An observation breaching no bound of `thresholds0`. -/
def obsCalm : Observation := ⟨20, 0, 50, 10⟩

/-- A results object with a single breaching entry (temperature). -/
def results1 : Results := ⟨some ⟨true, 40⟩, none, none, none⟩

/-- A farmer whose insurance policy is not active. -/
def farmerInactive : Farmer := { farmer0 with policyStatus := "expired" }

/-- Recognizer for ledger-transfer events. -/
def isTransfer : Event → Bool
  | .transfer _ _ => true
  | .save _ _ => false

/-- The Claim `settleFarmer 1 farmer0 obs0 (.ok 5) []` creates. -/
def claimC10 : ClaimRec :=
  ⟨(1, 1), 1, 77,
    buildSnapshot obs0 thresholds0 (exceedsThresholds obs0 thresholds0),
    250, .paid⟩

/-- `Math.min` agrees with the order-theoretic `min` on ℚ. -/
theorem jsMin_eq_min (a b : ℚ) : jsMin a b = min a b := (min_def a b).symm

/-- Each result entry contributes at most 1 to the breach count. -/
theorem optExceededCount_le_one (o : Option BreachResult) :
    optExceededCount o ≤ 1 := by
  cases o with
  | none => simp [optExceededCount]
  | some b => cases hb : b.exceeded <;> simp [optExceededCount, hb]

/-- A result entry contributing 1 to the breach count is a present,
breaching entry. -/
theorem optExceeded_of_count_one (o : Option BreachResult)
    (h : optExceededCount o = 1) : optExceeded o = true := by
  cases o with
  | none => simp [optExceededCount] at h
  | some b =>
    cases hb : b.exceeded with
    | true => simp [optExceeded, hb]
    | false => simp [optExceededCount, hb] at h

/-- Evaluation of one settlement run on the fixtures: temperature 40
breaches `max 30`, the payout is `min(1000 * 0.25, 1000) = 250`, the
transfer succeeds and the Claim ends `paid`. -/
theorem settle_farmer0_obs0_ok :
    settleFarmer 1 farmer0 obs0 (.ok 5) [] =
      ([claimC10],
        [.save (1, 1) .pending, .transfer 77 250, .save (1, 1) .paid],
        .created claimC10) := by
  norm_num [settleFarmer, farmer0, obs0, thresholds0, claimC10,
    exceedsThresholds, hasExceeded, optExceeded, aboveMax, belowMin,
    buildSnapshot, calculatePayoutAmount, exceededCount, optExceededCount,
    jsMin]

/-! Claim theorems. -/

/-- C4: if no configured metric breaches its bounds, the settlement
operation returns the no-claim outcome, persists nothing and invokes no
transfer. -/
theorem c4_no_breach_no_claim (now : ℕ) (f : Farmer) (w : Observation)
    (tr : TransferOutcome) (store : List ClaimRec) (t : Thresholds)
    (ht : f.weatherThresholds = some t)
    (hno : hasExceeded (exceedsThresholds w t) = false) :
    settleFarmer now f w tr store = (store, [], .noClaim) := by
  unfold settleFarmer
  rw [ht]
  simp [hno]

/-- Witness for C4 at `farmer0` and the calm observation. -/
theorem c4_no_breach_no_claim_witness :
    farmer0.weatherThresholds = some thresholds0
      ∧ hasExceeded (exceedsThresholds obsCalm thresholds0) = false
      ∧ settleFarmer 1 farmer0 obsCalm (.ok 0) [] = ([], [], .noClaim) :=
  ⟨rfl, by decide,
    c4_no_breach_no_claim 1 farmer0 obsCalm (.ok 0) [] thresholds0 rfl (by decide)⟩

/-- C7: in every settlement execution, a `pending` Claim save completes
strictly before any ledger transfer is invoked — the transfer never
appears in the event trace without a prior persisted Claim. -/
theorem c7_persist_before_transfer (now : ℕ) (f : Farmer) (w : Observation)
    (tr : TransferOutcome) (store : List ClaimRec) :
    savedBeforeTransfers false (settleFarmer now f w tr store).2.1 = true := by
  unfold settleFarmer
  cases f.weatherThresholds with
  | none => rfl
  | some t =>
    dsimp only
    split
    · split
      · rfl
      · cases tr <;> rfl
    · rfl

/-- C10: every Claim the monitoring loop creates embeds all four metrics;
each stored threshold is the config's `max` bound defaulted to 0 (the
`min` bound never appears), and the `exceeded` flag defaults to `false`
for metrics absent from the evaluator's result. -/
theorem c10_snapshot_all_metrics (now : ℕ) (f : Farmer) (w : Observation)
    (tr : TransferOutcome) (store : List ClaimRec) (t : Thresholds)
    (c : ClaimRec) (ht : f.weatherThresholds = some t)
    (hc : (settleFarmer now f w tr store).2.2 = .created c) :
    (c.weatherData.temperature.threshold = (t.temperature.bind Bound.max).getD 0
      ∧ c.weatherData.rainfall.threshold = (t.rainfall.bind Bound.max).getD 0
      ∧ c.weatherData.humidity.threshold = (t.humidity.bind Bound.max).getD 0
      ∧ c.weatherData.windSpeed.threshold = (t.windSpeed.bind Bound.max).getD 0)
    ∧ ((exceedsThresholds w t).temperature = none →
        c.weatherData.temperature.exceeded = false)
    ∧ ((exceedsThresholds w t).rainfall = none →
        c.weatherData.rainfall.exceeded = false)
    ∧ ((exceedsThresholds w t).humidity = none →
        c.weatherData.humidity.exceeded = false)
    ∧ ((exceedsThresholds w t).windSpeed = none →
        c.weatherData.windSpeed.exceeded = false) := by
  unfold settleFarmer at hc
  rw [ht] at hc
  dsimp only at hc
  by_cases hx : hasExceeded (exceedsThresholds w t) = true
  · rw [if_pos hx] at hc
    by_cases hdup : store.any (fun cl => cl.claimId = (now, f.id)) = true
    · rw [if_pos hdup] at hc
      exact absurd hc (by simp)
    · rw [if_neg hdup] at hc
      cases tr <;>
        · injection hc with hc
          subst hc
          refine ⟨⟨rfl, rfl, rfl, rfl⟩, ?_, ?_, ?_, ?_⟩ <;>
            · intro h
              simp [buildSnapshot, h]
  · rw [if_neg hx] at hc
    exact absurd hc (by simp)

/-- Witness for C10 at `farmer0`, `obs0`, a successful transfer. -/
theorem c10_snapshot_all_metrics_witness :
    farmer0.weatherThresholds = some thresholds0
      ∧ (settleFarmer 1 farmer0 obs0 (.ok 5) []).2.2 = .created claimC10
      ∧ ((claimC10.weatherData.temperature.threshold
            = (thresholds0.temperature.bind Bound.max).getD 0
          ∧ claimC10.weatherData.rainfall.threshold
            = (thresholds0.rainfall.bind Bound.max).getD 0
          ∧ claimC10.weatherData.humidity.threshold
            = (thresholds0.humidity.bind Bound.max).getD 0
          ∧ claimC10.weatherData.windSpeed.threshold
            = (thresholds0.windSpeed.bind Bound.max).getD 0)
        ∧ ((exceedsThresholds obs0 thresholds0).temperature = none →
            claimC10.weatherData.temperature.exceeded = false)
        ∧ ((exceedsThresholds obs0 thresholds0).rainfall = none →
            claimC10.weatherData.rainfall.exceeded = false)
        ∧ ((exceedsThresholds obs0 thresholds0).humidity = none →
            claimC10.weatherData.humidity.exceeded = false)
        ∧ ((exceedsThresholds obs0 thresholds0).windSpeed = none →
            claimC10.weatherData.windSpeed.exceeded = false)) :=
  ⟨rfl, by rw [settle_farmer0_obs0_ok],
    c10_snapshot_all_metrics 1 farmer0 obs0 (.ok 5) [] thresholds0 claimC10
      rfl (by rw [settle_farmer0_obs0_ok])⟩

/-- C1: settling the same (farmer, observation) twice at distinct times
creates two non-`failed` Claims and invokes a second transfer — the
time-derived `claimId` (`claim_${Date.now()}_${farmer._id}`) never
matches the first Claim, so no idempotency check fires. -/
theorem c1_double_settle_two_claims :
    ((settleFarmer 2 farmer0 obs0 (.ok 6)
          (settleFarmer 1 farmer0 obs0 (.ok 5) []).1).1.filter
        (fun c => c.status != Status.failed)).length = 2
      ∧ ((settleFarmer 2 farmer0 obs0 (.ok 6)
          (settleFarmer 1 farmer0 obs0 (.ok 5) []).1).2.1.any isTransfer) = true := by
  rw [settle_farmer0_obs0_ok]
  norm_num [settleFarmer, farmer0, obs0, thresholds0, claimC10,
    exceedsThresholds, hasExceeded, optExceeded, aboveMax, belowMin,
    buildSnapshot, calculatePayoutAmount, exceededCount, optExceededCount,
    jsMin, isTransfer, List.filter, List.any]
  decide

/-- C9: a thrown transfer error moves the Claim straight to `failed`
(no retryable classification, no attempt counter — the schema has no
such field — and no error reason recorded), while a non-thrown
unsuccessful result leaves the Claim `pending` with no bookkeeping at
all. -/
theorem c9_no_retry_classification :
    ((settleFarmer 1 farmer0 obs0 .throws []).1.map ClaimRec.status
        = [Status.failed])
      ∧ ((settleFarmer 1 farmer0 obs0 .err []).1.map ClaimRec.status
        = [Status.pending]) := by
  norm_num [settleFarmer, farmer0, obs0, thresholds0,
    exceedsThresholds, hasExceeded, optExceeded, aboveMax, belowMin,
    buildSnapshot, calculatePayoutAmount, exceededCount, optExceededCount,
    jsMin]

/-- C8 counterexample: `markAsPaid` followed by `approve` yields the
status history `[pending, paid, approved]` — `approve` sets the status
unconditionally, so the history contains `paid` followed by another
state. -/
theorem c8_paid_then_approved_counterexample :
    List.scanl applyOp Status.pending [ClaimOp.markAsPaidOp, ClaimOp.approveOp]
        = [Status.pending, Status.paid, Status.approved]
      ∧ noPaidThenOther
          (List.scanl applyOp Status.pending
            [ClaimOp.markAsPaidOp, ClaimOp.approveOp]) = false := by
  decide

/-- C8 amended: the monitoring loop's own status writes never produce
`paid` followed by another state, and no operation ever transitions any
status back to `pending` (the administrative setters, being
unconditional, can overwrite `paid` with another terminal state — see
the counterexample). -/
theorem c8_loop_status_paid_terminal :
    (∀ (now : ℕ) (f : Farmer) (w : Observation) (tr : TransferOutcome)
        (store : List ClaimRec),
      noPaidThenOther (statusTrace (settleFarmer now f w tr store).2.1) = true)
      ∧ (∀ (s : Status) (op : ClaimOp), applyOp s op ≠ Status.pending) := by
  constructor
  · intro now f w tr store
    unfold settleFarmer
    cases f.weatherThresholds with
    | none => rfl
    | some t =>
      dsimp only
      split
      · split
        · rfl
        · cases tr <;> rfl
      · rfl
  · intro s op
    cases op <;> simp [applyOp]

/-- C2 counterexample: for a policy with `coverageAmount = 0` and one
breaching metric, the calculation returns 250 — not
`min(0 * 0.25, 0) = 0` — exceeding the coverage amount, because the JS
`||` replaces the falsy coverage with the 1000 default. -/
theorem c2_zero_coverage_counterexample :
    calculatePayoutAmount (some 0) results1 = 250
      ∧ ¬ calculatePayoutAmount (some 0) results1 ≤ 0 := by
  norm_num [calculatePayoutAmount, results1, exceededCount, optExceededCount,
    jsMin]

/-- C2 amended: with base = coverageAmount when it is nonzero (zero or
absent coverage is replaced by the 1000 default), the calculation
returns `min(base * multiplier, base)` with a 0.25 share per breaching
entry, never exceeds a positive coverage, and reaches it only when all
four metrics are configured and breach. -/
theorem c2_payout_cap (c : ℚ) (r : Results) (hc : 0 < c) :
    calculatePayoutAmount (some c) r
        = min (c * ((exceededCount r : ℚ) * (1/4))) c
      ∧ calculatePayoutAmount (some c) r ≤ c
      ∧ (calculatePayoutAmount (some c) r = c →
          optExceeded r.temperature = true ∧ optExceeded r.rainfall = true
            ∧ optExceeded r.humidity = true ∧ optExceeded r.windSpeed = true) := by
  have hne : c ≠ 0 := ne_of_gt hc
  have heq : calculatePayoutAmount (some c) r
      = min (c * ((exceededCount r : ℚ) * (1/4))) c := by
    simp [calculatePayoutAmount, hne, jsMin_eq_min]
  refine ⟨heq, by rw [heq]; exact min_le_right _ _, ?_⟩
  intro h
  rw [heq] at h
  have hm : c ≤ c * ((exceededCount r : ℚ) * (1/4)) := min_eq_right_iff.mp h
  have h1 : (1 : ℚ) ≤ (exceededCount r : ℚ) * (1/4) := by
    have h2 : c * 1 ≤ c * ((exceededCount r : ℚ) * (1/4)) := by simpa using hm
    exact (mul_le_mul_left hc).mp h2
  have h4 : 4 ≤ exceededCount r := by
    have : (4 : ℚ) ≤ (exceededCount r : ℚ) := by linarith
    exact_mod_cast this
  have ht := optExceededCount_le_one r.temperature
  have hr := optExceededCount_le_one r.rainfall
  have hh := optExceededCount_le_one r.humidity
  have hw := optExceededCount_le_one r.windSpeed
  unfold exceededCount at h4
  refine ⟨optExceeded_of_count_one _ (by omega),
    optExceeded_of_count_one _ (by omega),
    optExceeded_of_count_one _ (by omega),
    optExceeded_of_count_one _ (by omega)⟩

/-- Witness for C2 amended at coverage 1000 and a single breach. -/
theorem c2_payout_cap_witness :
    (0 : ℚ) < 1000
      ∧ (calculatePayoutAmount (some 1000) results1
            = min ((1000 : ℚ) * ((exceededCount results1 : ℚ) * (1/4))) 1000
          ∧ calculatePayoutAmount (some 1000) results1 ≤ 1000
          ∧ (calculatePayoutAmount (some 1000) results1 = 1000 →
              optExceeded results1.temperature = true
                ∧ optExceeded results1.rainfall = true
                ∧ optExceeded results1.humidity = true
                ∧ optExceeded results1.windSpeed = true)) :=
  ⟨by norm_num, c2_payout_cap 1000 results1 (by norm_num)⟩

/-- C3 counterexample: for a policy with `coverageAmount = 0` (which the
claim says must yield 0 and "not payable"), the calculation returns a
positive amount computed from the 1000 default. -/
theorem c3_zero_coverage_payable_counterexample :
    calculatePayoutAmount (some 0) results1 = 250 ∧ (250 : ℚ) ≠ 0 := by
  norm_num [calculatePayoutAmount, results1, exceededCount, optExceededCount,
    jsMin]

/-- C3 amended: inactive policies are excluded upstream by the
coordinator's farmer query (so no Claim is created for them), but the
payout calculation itself checks neither flag nor coverage: a zero or
absent `coverageAmount` is replaced by the 1000 default rather than
yielding 0 / "not payable". -/
theorem c3_inactive_filtered_zero_coverage_defaulted :
    (∀ (now : ℕ) (f : Farmer) (wOf : ℕ → Observation)
        (trOf : ℕ → TransferOutcome) (store : List ClaimRec),
        f.policyStatus ≠ "active" → processTriggers now [f] wOf trOf store = store)
      ∧ (∀ r : Results,
          calculatePayoutAmount (some 0) r = calculatePayoutAmount (some 1000) r)
      ∧ (∀ r : Results,
          calculatePayoutAmount none r = calculatePayoutAmount (some 1000) r) := by
  refine ⟨?_, ?_, ?_⟩
  · intro now f wOf trOf store h
    simp [processTriggers, farmerEligible, h]
  · intro r
    norm_num [calculatePayoutAmount]
  · intro r
    norm_num [calculatePayoutAmount]

/-- Witness for C3 amended: an expired policy is filtered out, and
zero coverage is defaulted. -/
theorem c3_inactive_filtered_witness :
    farmerInactive.policyStatus ≠ "active"
      ∧ processTriggers 1 [farmerInactive] (fun _ => obs0) (fun _ => .ok 0) [] = []
      ∧ calculatePayoutAmount (some 0) results1
          = calculatePayoutAmount (some 1000) results1 :=
  ⟨by decide,
    c3_inactive_filtered_zero_coverage_defaulted.1 1 farmerInactive
      (fun _ => obs0) (fun _ => .ok 0) [] (by decide),
    c3_inactive_filtered_zero_coverage_defaulted.2.1 results1⟩

/-- C5 counterexample: for a breach of the negative bound `min = -10` by
`value = -20`, the code divides by the signed bound and gets a negative
deviation, classifying the breach `moderate`, while the spec's formula
`|value - bound| / |bound| = 1` classifies it `critical`. -/
theorem c5_negative_bound_counterexample :
    calculateSeverity (-20) (some ⟨some (-10), none⟩) = Severity.moderate
      ∧ specSeverityOfBreach (-20) (-10) = Severity.critical := by
  constructor
  · norm_num [calculateSeverity, belowMin, aboveMax, jsDiv, sevOfDeviation,
      JsNum.gtn]
  · norm_num [specSeverityOfBreach, abs]

/-- C5 amended: the code's deviation divides by the signed bound
(`(min - value) / min`, `(value - max) / max`), which agrees with the
spec's `|value - bound| / |bound|` classification exactly when the
violated bound is positive; every breach of a negative violated bound
gets a negative deviation and is classified `moderate`; non-breaching
inputs are `normal`. -/
theorem c5_severity_spec_on_positive_bounds (value : ℚ) (t : Bound) :
    (∀ m : ℚ, t.min = some m → value < m → 0 < m →
        calculateSeverity value (some t) = specSeverityOfBreach value m)
      ∧ (∀ M : ℚ, t.max = some M → belowMin value t.min = false →
          M < value → 0 < M →
          calculateSeverity value (some t) = specSeverityOfBreach value M)
      ∧ (∀ m : ℚ, t.min = some m → value < m → m < 0 →
          calculateSeverity value (some t) = Severity.moderate)
      ∧ (∀ M : ℚ, t.max = some M → belowMin value t.min = false →
          M < value → M < 0 →
          calculateSeverity value (some t) = Severity.moderate)
      ∧ (belowMin value t.min = false → aboveMax value t.max = false →
          calculateSeverity value (some t) = Severity.normal)
      ∧ calculateSeverity value none = Severity.normal := by
  refine ⟨?_, ?_, ?_, ?_, ?_, rfl⟩
  · intro m hm hv hmpos
    have hb : belowMin value (some m) = true := by simp [belowMin, hv]
    have h1 : |value - m| = m - value := by
      rw [abs_of_neg (by linarith)]; ring
    have h2 : |m| = m := abs_of_pos hmpos
    simp only [calculateSeverity, hm, hb, if_true, Option.getD_some,
      specSeverityOfBreach, h1, h2, jsDiv, if_neg hmpos.ne',
      sevOfDeviation, JsNum.gtn, decide_eq_true_eq]
  · intro M hM hbm hv hMpos
    have ha : aboveMax value (some M) = true := by simp [aboveMax, hv]
    have h1 : |value - M| = value - M := by
      rw [abs_of_pos (by linarith)]
    have h2 : |M| = M := abs_of_pos hMpos
    simp only [calculateSeverity, hbm, Bool.false_eq_true, if_false, hM, ha,
      if_true, Option.getD_some, specSeverityOfBreach, h1, h2, jsDiv,
      if_neg hMpos.ne', sevOfDeviation, JsNum.gtn, decide_eq_true_eq]
  · intro m hm hv hmneg
    have hb : belowMin value (some m) = true := by simp [belowMin, hv]
    have hq : (m - value) / m < 0 :=
      div_neg_of_pos_of_neg (by linarith) hmneg
    have h1 : ¬ ((1 : ℚ)/2 < (m - value) / m) := by linarith
    have h2 : ¬ ((1 : ℚ)/5 < (m - value) / m) := by linarith
    simp only [calculateSeverity, hm, hb, if_true, Option.getD_some, jsDiv,
      if_neg hmneg.ne, sevOfDeviation, JsNum.gtn, decide_eq_true_eq,
      if_neg h1, if_neg h2]
  · intro M hM hbm hv hMneg
    have ha : aboveMax value (some M) = true := by simp [aboveMax, hv]
    have hq : (value - M) / M < 0 :=
      div_neg_of_pos_of_neg (by linarith) hMneg
    have h1 : ¬ ((1 : ℚ)/2 < (value - M) / M) := by linarith
    have h2 : ¬ ((1 : ℚ)/5 < (value - M) / M) := by linarith
    simp only [calculateSeverity, hbm, Bool.false_eq_true, if_false, hM, ha,
      if_true, Option.getD_some, jsDiv, if_neg hMneg.ne, sevOfDeviation,
      JsNum.gtn, decide_eq_true_eq, if_neg h1, if_neg h2]
  · intro hbm ham
    simp [calculateSeverity, hbm, ham]

/-- Witness for C5 amended: `value = 5` against `min = 10` (deviation
exactly 0.5, classified `severe` by both sides), and `value = -20`
against the negative bound `min = -10`, classified `moderate`. -/
theorem c5_severity_spec_witness :
    ((⟨some 10, none⟩ : Bound).min = some 10 ∧ (5 : ℚ) < 10 ∧ (0 : ℚ) < 10
        ∧ calculateSeverity 5 (some ⟨some 10, none⟩) = specSeverityOfBreach 5 10)
      ∧ ((⟨some (-10), none⟩ : Bound).min = some (-10)
        ∧ (-20 : ℚ) < -10 ∧ (-10 : ℚ) < 0
        ∧ calculateSeverity (-20) (some ⟨some (-10), none⟩) = Severity.moderate) :=
  ⟨⟨rfl, by norm_num, by norm_num,
      (c5_severity_spec_on_positive_bounds 5 ⟨some 10, none⟩).1 10 rfl
        (by norm_num) (by norm_num)⟩,
    ⟨rfl, by norm_num, by norm_num,
      (c5_severity_spec_on_positive_bounds (-20) ⟨some (-10), none⟩).2.2.1 (-10)
        rfl (by norm_num) (by norm_num)⟩⟩

/-- C6 counterexample: a breach of the zero bound `min = 0` makes the
severity computation divide by that zero bound — the division
`(0 - value) / 0` is performed (denominator 0), contradicting the
claim that no such division happens. -/
theorem c6_divides_by_zero_bound_counterexample :
    severityDivisions (-5) (some ⟨some 0, none⟩) = [(5, 0)]
      ∧ (severityDivisions (-5) (some ⟨some 0, none⟩)).any
          (fun p => p.2 = 0) = true := by
  constructor
  · norm_num [severityDivisions, belowMin]
  · norm_num [severityDivisions, belowMin]

/-- C6 amended: the code does divide by a breached zero bound, but under
JS IEEE semantics the quotient is `+Infinity`, which exceeds 0.5, so the
breach is classified `critical` and no runtime error occurs. -/
theorem c6_zero_bound_breach_critical (value : ℚ) (t : Bound) :
    (t.min = some 0 → value < 0 →
        calculateSeverity value (some t) = Severity.critical)
      ∧ (belowMin value t.min = false → t.max = some 0 → 0 < value →
        calculateSeverity value (some t) = Severity.critical) := by
  constructor
  · intro hm hv
    have hb : belowMin value (some (0 : ℚ)) = true := by simp [belowMin, hv]
    simp [calculateSeverity, hm, hb, jsDiv, hv, sevOfDeviation, JsNum.gtn]
  · intro hbm hM hv
    have ha : aboveMax value (some (0 : ℚ)) = true := by simp [aboveMax, hv]
    simp [calculateSeverity, hbm, hM, ha, jsDiv, hv, sevOfDeviation,
      JsNum.gtn]

/-- Witness for C6 amended: `value = -5` breaching `min = 0` is
classified `critical`. -/
theorem c6_zero_bound_breach_witness :
    (⟨some 0, none⟩ : Bound).min = some 0 ∧ (-5 : ℚ) < 0
      ∧ calculateSeverity (-5) (some ⟨some 0, none⟩) = Severity.critical :=
  ⟨rfl, by norm_num,
    (c6_zero_bound_breach_critical (-5) ⟨some 0, none⟩).1 rfl (by norm_num)⟩

end FarmerShield
